import Mathlib

/-!
Verification of the CommonsShare resource publication pipeline
(`hs_core/hydroshare/resource.py`): the manifest builder, the packaging /
identifier-minting / third-party-registration / commit sequence of
`publish_resource`, and the versioning lineage operations
`create_new_version_resource` and `delete_resource`.

The Python code is embedded shallowly: external collaborators (the iRODS
storage backend, the minid registry, the DataCite endpoint, the FairShake
service) are modelled by an `Env` record supplying their observable
responses; the Django ORM's persisted state is a `DB` record, and a save
operation copies in-memory values into it.  A run of `publish_resource`
returns a `PubResult` holding the persisted state at the moment the
function returned or raised, the raised error (if any), and effect flags
recording which backend operations were performed (scratch-directory
creation/removal, bag creation, external calls).
-/

namespace CommonsShare

/-! ## String helpers

Implemented by structural recursion over the character list so that every
definition reduces inside the kernel (`decide` / `rfl` on concrete inputs).
-/

/-- Split a character list on a separator, mirroring Python `str.split`. -/
def splitOnChar : List Char → Char → List (List Char)
  | [], _ => [[]]
  | c :: rest, sep =>
    if c = sep then [] :: splitOnChar rest sep
    else
      match splitOnChar rest sep with
      | [] => [[c]]
      | g :: gs => (c :: g) :: gs

/-- Membership of a character in a character list. -/
def containsChar : List Char → Char → Bool
  | [], _ => false
  | a :: rest, c => a = c || containsChar rest c

/-- The substring after the last '/' of `s`; the whole string when `s` has
no '/'.  This is Python `s[s.rfind('/') + 1:]` (with `rfind = -1` giving
the whole string), used for reference-file display names. -/
def lastPathSegment (s : String) : String :=
  String.mk (((splitOnChar s.data '/').getLast?).getD s.data)

/-- The substring after the last '/' of `s`, or `none` when `s` contains no
'/'.  This is Python `s[s.rindex('/') + 1:]`, where `rindex` raises
`ValueError` when the separator is absent. -/
def afterLastSlash (s : String) : Option String :=
  if containsChar s.data '/' then some (lastPathSegment s) else none

/-- Python `str.lower` (restricted to ASCII as used by the code). -/
def strLower (s : String) : String :=
  String.mk (s.data.map Char.toLower)

/-- Whether `p` is an initial run of `s` (character lists). -/
def charsStart : List Char → List Char → Bool
  | [], _ => true
  | _ :: _, [] => false
  | p :: ps, c :: cs => p = c && charsStart ps cs

/-- Python `s.startswith(p)`. -/
def strStartsWith (s p : String) : Bool :=
  charsStart p.data s.data

/-- Python `s[4:]`. -/
def strDrop4 (s : String) : String :=
  String.mk (s.data.drop 4)

/-! ## Base64 decoding and hex encoding

`base64.b64decode(x).encode('hex')` from the manifest builder's checksum
handling. -/

/-- Value of one base64 alphabet character. -/
def b64CharVal (c : Char) : Nat :=
  if 'A' ≤ c ∧ c ≤ 'Z' then c.toNat - 65
  else if 'a' ≤ c ∧ c ≤ 'z' then c.toNat - 97 + 26
  else if '0' ≤ c ∧ c ≤ '9' then c.toNat - 48 + 52
  else if c = '+' then 62
  else if c = '/' then 63
  else 0

/-- Decode base64 character groups of four into byte values, honouring
trailing `=` padding. -/
def b64Groups : List Char → List Nat
  | c1 :: c2 :: c3 :: c4 :: rest =>
    let n := b64CharVal c1 * 262144 + b64CharVal c2 * 4096 + b64CharVal c3 * 64 + b64CharVal c4
    (if c4 = '=' then
      if c3 = '=' then [n / 65536]
      else [n / 65536, n / 256 % 256]
    else [n / 65536, n / 256 % 256, n % 256]) ++ b64Groups rest
  | _ => []

/-- One lowercase hex digit. -/
def hexDigit (n : Nat) : Char :=
  if n < 10 then Char.ofNat (48 + n) else Char.ofNat (87 + n)

/-- Two-character lowercase hex rendering of a byte. -/
def byteToHex (b : Nat) : List Char :=
  [hexDigit (b / 16), hexDigit (b % 16)]

/-- Python `base64.b64decode(s).encode('hex')`. -/
def b64ToHex (s : String) : String :=
  String.mk (((b64Groups s.data).map byteToHex).flatten)

/-! ## Data model -/

/-- Persisted access-control flags of a resource (`resource.raccess`). -/
structure RAccess where
  publicFlag : Bool
  discoverable : Bool
  immutable : Bool
  shareable : Bool
  published : Bool
deriving DecidableEq

/-- One file of a resource (`hs_core.models.ResourceFile`).  A `some`
`referencePath` marks a reference file (Python tests the truthiness of
`reference_file_path`; the empty/absent case is `none` here). -/
structure ResourceFile where
  referencePath : Option String
  storagePath : String
  size : Nat
  fileName : String
deriving DecidableEq

/-- One entry of the files manifest produced by
`get_resource_files_manifest`: the `url`, `length` and `filename` keys are
always present; at most one of `sha256` / `md5` is present, depending on
the prefix the storage backend reported. -/
structure ManifestEntry where
  url : String
  length : Nat
  filename : String
  sha256 : Option String := none
  md5 : Option String := none
deriving DecidableEq

/-- Responses of the external collaborators during one run, together with
deployment settings.  `checksumOf` returns `Except.error stderr` when the
backend raises a `SessionException`. -/
structure Env where
  siteUrl : String
  irodsHome : String
  collExists : Bool
  bagModified : Option String
  checksumOf : String → Except String String
  sizeOf : String → Nat
  bagChecksum : String
  minidResult : Except String String
  doiStatus : Nat
  doiId : String
  fairshakeAuthStatus : Nat
  fairshakeRegStatus : Nat
  fairshakeId : Nat

/-! ## Manifest builder (`get_resource_files_manifest`) -/

/-- The backend path whose checksum/size is looked up for file `f`: the
reference target itself for reference files, otherwise
`os.path.join(settings.IRODS_HOME_COLLECTION, f.storage_path)`. -/
def srcPath (env : Env) (f : ResourceFile) : String :=
  match f.referencePath with
  | some rp => rp
  | none => env.irodsHome ++ "/" ++ f.storagePath

/-- The download url recorded in the manifest entry for file `f`. -/
def fetchUrlOf (env : Env) (shortId : String) (f : ResourceFile) : String :=
  match f.referencePath with
  | some rp => env.siteUrl ++ "/django_irods/download/" ++ shortId ++ rp
  | none => env.siteUrl ++ "/django_irods/download/" ++ f.storagePath

/-- The `length` value recorded for file `f`: a backend size lookup for
reference files, the stored `f.size` otherwise. -/
def lengthOf (env : Env) (f : ResourceFile) : Nat :=
  match f.referencePath with
  | some rp => env.sizeOf rp
  | none => f.size

/-- The `filename` value recorded for file `f`. -/
def filenameOf (f : ResourceFile) : String :=
  match f.referencePath with
  | some rp => lastPathSegment rp
  | none => f.fileName

/-- Attach the checksum field to a manifest entry: on a backend failure the
entry is left without either checksum field (the exception is logged, not
re-raised); otherwise the field is chosen by the reported prefix and holds
the hex rendering of the base64 payload after the four-character prefix. -/
def addChecksum (e : ManifestEntry) : Except String String → ManifestEntry
  | .error _ => e
  | .ok c =>
    if strStartsWith c "sha" then { e with sha256 := some (b64ToHex (strDrop4 c)) }
    else if strStartsWith c "md5" then { e with md5 := some (b64ToHex (strDrop4 c)) }
    else e

/-- The manifest entry emitted for one resource file. -/
def manifestEntryFor (env : Env) (shortId : String) (f : ResourceFile) : ManifestEntry :=
  addChecksum
    { url := fetchUrlOf env shortId f, length := lengthOf env f, filename := filenameOf f }
    (env.checksumOf (srcPath env f))

/-- The function `get_resource_files_manifest`: one entry per resource file, in file
enumeration order. -/
def get_resource_files_manifest (env : Env) (shortId : String)
    (files : List ResourceFile) : List ManifestEntry :=
  files.map (manifestEntryFor env shortId)

/-! ## Publication pipeline (`publish_resource`) -/

/-- The persisted record of the resource itself: its external identifier
fields and the FairShake assessment id. -/
structure ResourceRec where
  doi : String
  minid : String
  assessmentId : Option Nat
deriving DecidableEq

/-- One metadata element carrying a name and a url (used for the
`Identifier` and `Publisher` science-metadata elements). -/
structure MdElement where
  name : String
  url : String
deriving DecidableEq

/-- The persisted database state touched by `publish_resource`. -/
structure DB where
  res : ResourceRec
  raccess : RAccess
  identifiersMd : List MdElement
  publishersMd : List MdElement
  publishedDates : Nat
deriving DecidableEq

/-- The in-memory resource object as `publish_resource` sees it. -/
structure PResource where
  shortId : String
  title : String
  canBePublished : Bool
  files : List ResourceFile
deriving DecidableEq

/-- The Python exceptions `publish_resource` can raise: `ValidationError`
(ineligibility and the missing-collection integrity failure),
`PublishException`, `IndexError` / `KeyError` from the single-file fast
path, an exception propagating out of an external client library, and the
`UnboundLocalError` reached with an unrecognised publish type. -/
inductive PubError where
  | validationErr (msg : String)
  | publishExc (msg : String)
  | keyErr (k : String)
  | indexErr
  | externalErr (msg : String)
  | nameErr (n : String)
deriving DecidableEq

/-- Outcome of one `publish_resource` run: the persisted state when the
function returned or raised, the raised error if any, and flags recording
the side effects and external calls performed along the way.  `shaUsed`,
`sizeUsed` and `urlUsed` record the checksum/size/download-url the
packaging step produced for identifier minting. -/
structure PubResult where
  db : DB
  err : Option PubError
  tmpdirCreated : Bool
  tmpdirRemoved : Bool
  existsChecked : Bool
  avuChecked : Bool
  bagCreated : Bool
  bagDownloaded : Bool
  shaUsed : Option String
  sizeUsed : Option Nat
  urlUsed : Option String
  mintCalled : Bool
  fairshakeAuthCalled : Bool
  fairshakeRegCalled : Bool
deriving DecidableEq

/-- Checksum, size, format and download url handed from the packaging step
to identifier minting. -/
structure PackInfo where
  shaChecksum : String
  size : Nat
  fileFormat : String
  downloadUrl : String
deriving DecidableEq

/-- In-memory identifier fields after the minting branch, plus the
`Identifier` metadata element to be created at commit time (`none` when no
branch matched the publish type, leaving `ident_md_args` unbound). -/
structure MintInfo where
  newDoi : String
  newMinid : String
  identMd : Option MdElement
deriving DecidableEq

/-- Message of the eligibility `ValidationError`. -/
def ineligibleMsg : String :=
  "This resource cannot be published since it does not have required metadata or content files or this resource type is not allowed for publication."

/-- Message of the missing-collection `ValidationError` (the spec's
StorageIntegrityError). -/
def storageIntegrityMsg (shortId : String) : String :=
  "Resource " ++ shortId ++ " does not exist in iRODS"

/-- Message of the DOI-minting `PublishException`. -/
def doiFailMsg : String :=
  "Unable to retrieve a DOI from DataCite. Resource cannot be published."

/-- Message of the FairShake `PublishException`s. -/
def fairshakeFailMsg : String :=
  "This resource cannot be published because it has failed the FairShake registration process."

/-- The `Publisher` metadata element created at commit time. -/
def commonsSharePublisher : MdElement :=
  { name := "CommonsShare", url := "https://www.commonsshare.org" }

/-- Step 2 of the pipeline (lines 956-982): for more than one file, check
the backend collection exists (raising the storage-integrity
`ValidationError` otherwise), consult the `bag_modified` flag and rebuild
the bag when it is absent or `"true"`, download the bag and take its
checksum/size/download url; otherwise reuse the single manifest entry's
`sha256`/`length`/`url` directly (raising `IndexError` on an empty
manifest and `KeyError` when the entry has no `sha256` key). -/
def packagingStep (env : Env) (res : PResource) (manifest : List ManifestEntry)
    (r : PubResult) : PubResult ⊕ (PackInfo × PubResult) :=
  if 1 < res.files.length then
    let r2 := { r with existsChecked := true }
    if env.collExists = false then
      Sum.inl { r2 with err := some (.validationErr (storageIntegrityMsg res.shortId)) }
    else
      let r3 := { r2 with avuChecked := true }
      let needBag : Bool :=
        match env.bagModified with
        | none => true
        | some s => strLower s = "true"
      let r4 := { r3 with bagCreated := needBag }
      let srcfile := env.irodsHome ++ "/bags/" ++ res.shortId ++ ".zip"
      let sha := env.bagChecksum
      let sz := env.sizeOf srcfile
      let durl := env.siteUrl ++ "/django_irods/download/bags/" ++ res.shortId ++ ".zip"
      Sum.inr
        ({ shaChecksum := sha, size := sz, fileFormat := "application/zip",
           downloadUrl := durl },
         { r4 with bagDownloaded := true, shaUsed := some sha,
                   sizeUsed := some sz, urlUsed := some durl })
  else
    match manifest.head? with
    | none => Sum.inl { r with err := some .indexErr }
    | some e0 =>
      match e0.sha256 with
      | none => Sum.inl { r with err := some (.keyErr "sha256") }
      | some sha =>
        Sum.inr
          ({ shaChecksum := sha, size := e0.length, fileFormat := "text/plain",
             downloadUrl := e0.url },
           { r with shaUsed := some sha, sizeUsed := some e0.length,
                    urlUsed := some e0.url })

/-- Step 3 (lines 984-1049): dispatch on the lowercased publish type.  The
minid branch calls the registration service and on success sets the minid
and clears the DOI (in memory); the DOI branch issues the DataCite PUT,
raising `PublishException` on a non-200 response, and on success sets the
DOI and clears the minid; any other publish type matches neither branch
and leaves `ident_md_args` unbound (`identMd = none`), with the original
identifier fields untouched.  The scratch directory is removed (line
1049) only after the selected branch finishes without raising. -/
def mintStep (env : Env) (origRes : ResourceRec) (publishType : String)
    (_pack : PackInfo) (r : PubResult) : PubResult ⊕ (MintInfo × PubResult) :=
  if strLower publishType = "minid" then
    let r6 := { r with mintCalled := true }
    match env.minidResult with
    | .error msg => Sum.inl { r6 with err := some (.externalErr msg) }
    | .ok ident =>
      Sum.inr
        ({ newDoi := "", newMinid := ident,
           identMd := some
             { name := "minid",
               url := "http://minid.bd2k.org/minid/landingpage/" ++ ident
                 ++ ", http://n2t.net/" ++ ident } },
         { r6 with tmpdirRemoved := true })
  else if strLower publishType = "doi" then
    let r6 := { r with mintCalled := true }
    if env.doiStatus ≠ 200 then
      Sum.inl { r6 with err := some (.publishExc doiFailMsg) }
    else
      Sum.inr
        ({ newDoi := env.doiId, newMinid := "",
           identMd := some
             { name := "doi",
               url := "https://ors.datacite.org/" ++ env.doiId } },
         { r6 with tmpdirRemoved := true })
  else
    Sum.inr
      ({ newDoi := origRes.doi, newMinid := origRes.minid, identMd := none },
       { r with tmpdirRemoved := true })

/-- Step 4 (lines 1054-1090): FairShake authentication (non-200 fatal)
followed by FairShake registration (non-201 fatal), yielding the
assessment id. -/
def registrationStep (env : Env) (r : PubResult) : PubResult ⊕ (Nat × PubResult) :=
  let r8 := { r with fairshakeAuthCalled := true }
  if env.fairshakeAuthStatus ≠ 200 then
    Sum.inl { r8 with err := some (.publishExc fairshakeFailMsg) }
  else
    let r9 := { r8 with fairshakeRegCalled := true }
    if env.fairshakeRegStatus ≠ 201 then
      Sum.inl { r9 with err := some (.publishExc fairshakeFailMsg) }
    else
      Sum.inr (env.fairshakeId, r9)

/-- Step 5 (lines 1092-1110): persist the resource record (including the
new identifier fields and assessment id), flip the access flags
(`set_public(True)` also sets discoverable) and save them, create the
`Publisher` and published-`date` metadata elements, and finally create the
`Identifier` element — which raises `UnboundLocalError` when no minting
branch bound `ident_md_args`, after everything before it has already been
persisted. -/
def commitStep (db0 : DB) (mint : MintInfo) (assessmentId : Nat)
    (r : PubResult) : PubResult :=
  let savedRes : ResourceRec :=
    { db0.res with doi := mint.newDoi, minid := mint.newMinid,
                   assessmentId := some assessmentId }
  let ra : RAccess :=
    { publicFlag := true, discoverable := true, immutable := true,
      shareable := false, published := true }
  let db1 : DB :=
    { db0 with res := savedRes, raccess := ra,
               publishersMd := db0.publishersMd ++ [commonsSharePublisher],
               publishedDates := db0.publishedDates + 1 }
  match mint.identMd with
  | none => { r with db := db1, err := some (.nameErr "ident_md_args") }
  | some md =>
    { r with db := { db1 with identifiersMd := db0.identifiersMd ++ [md] } }

/-- The database state commit writes: resource record saved with the new
identifier fields and assessment id, all five access flags flipped, one
`Publisher` element and one published-`date` element appended. -/
def dbCommitted (db0 : DB) (mint : MintInfo) (aid : Nat) : DB :=
  { db0 with
    res := { db0.res with doi := mint.newDoi, minid := mint.newMinid,
                          assessmentId := some aid },
    raccess := { publicFlag := true, discoverable := true, immutable := true,
                 shareable := false, published := true },
    publishersMd := db0.publishersMd ++ [commonsSharePublisher],
    publishedDates := db0.publishedDates + 1 }

/-- The state right after the eligibility check: nothing persisted or
touched yet. -/
def initState (db0 : DB) : PubResult :=
  { db := db0, err := none, tmpdirCreated := false, tmpdirRemoved := false,
    existsChecked := false, avuChecked := false, bagCreated := false,
    bagDownloaded := false, shaUsed := none, sizeUsed := none,
    urlUsed := none, mintCalled := false, fairshakeAuthCalled := false,
    fairshakeRegCalled := false }

/-- Steps 3-5 of the pipeline, entered after packaging succeeded. -/
def publishTail (env : Env) (db0 : DB) (publishType : String)
    (pack : PackInfo) (r5 : PubResult) : PubResult :=
  match mintStep env db0.res publishType pack r5 with
  | Sum.inl rerr => rerr
  | Sum.inr (mint, r7) =>
    match registrationStep env r7 with
    | Sum.inl rerr => rerr
    | Sum.inr (aid, r9) => commitStep db0 mint aid r9

/-- The function `publish_resource(user, pk, publish_type)`.  Faithful to the source's
control flow: eligibility check (zero side effects on failure); manifest
build; scratch-directory creation; packaging; identifier minting;
FairShake registration; final commit.  Every raise is modelled by
returning the state accumulated so far with `err` set. -/
def publish_resource (env : Env) (res : PResource) (db0 : DB)
    (publishType : String) : PubResult :=
  if res.canBePublished = false then
    { initState db0 with err := some (.validationErr ineligibleMsg) }
  else
    let manifest := get_resource_files_manifest env res.shortId res.files
    let r1 := { initState db0 with tmpdirCreated := true }
    match packagingStep env res manifest r1 with
    | Sum.inl rerr => rerr
    | Sum.inr (pack, r5) => publishTail env db0 publishType pack r5

/-! ## Versioning lineage (`create_new_version_resource`, `delete_resource`) -/

/-- One `relation` metadata element: a typed edge whose value is the url of
the related resource. -/
structure Relation where
  rtype : String
  value : String
deriving DecidableEq

/-- A resource as the lineage operations see it: its short id, its
mutability flag, its `relation` metadata elements and its `Identifier`
metadata elements (among which `hydroShareIdentifier` carries the
resource's canonical url). -/
structure VResource where
  shortId : String
  immutable : Bool
  relations : List Relation
  mdIdentifiers : List MdElement
deriving DecidableEq

/-- Remove the first relation of the given type, which is what
`metadata.delete_element('relation', eid)` with
`eid = relations.filter(type=t).first().id` does. -/
def deleteFirstRel : List Relation → String → List Relation
  | [], _ => []
  | r :: rest, t => if r.rtype == t then rest else r :: deleteFirstRel rest t

/-- The relations of `rs` having type `t`. -/
def relsOfType (rs : List Relation) (t : String) : List Relation :=
  rs.filter (fun r => r.rtype == t)

/-- The first `hydroShareIdentifier` element of a resource's metadata
(`identifiers.all().filter(name="hydroShareIdentifier")[0]`, raising
`IndexError` when absent). -/
def hsIdentifier (r : VResource) : Option MdElement :=
  (r.mdIdentifiers.filter (fun m => m.name == "hydroShareIdentifier")).head?

/-- Errors of the lineage operations: `IndexError` from the identifier
lookup, `NotFound` from a failed resource lookup, `ValueError` from
`rindex` on a slash-free url, and the `ValidationError` guarding the
obsolescence chain (the spec's ChainIntegrityError). -/
inductive LineageError where
  | indexErr
  | notFound
  | valueErr
  | chainIntegrity (msg : String)
deriving DecidableEq

/-- Message of the chain-integrity `ValidationError` in `delete_resource`. -/
def chainMsg : String :=
  "An obsoleted resource in the middle of the obsolescence chain cannot be deleted."

/-- The function `create_new_version_resource(ori_res, new_res, user)`, from the point
where the external copy helpers have run: `ori` and `new` are the two
resources as they stand after `copy_resource_files_and_AVUs` and
`copy_and_create_metadata` (so `new.relations` may contain an inherited
`isVersionOf` edge).  The function then adds `isReplacedBy` on the
original (valued at the new resource's canonical url), deletes a single
inherited `isVersionOf` from the new resource if one exists, adds the
correct `isVersionOf` edge (valued at the original's canonical url), and
marks the original immutable. -/
def create_new_version_resource (ori new : VResource) :
    Except LineageError (VResource × VResource) :=
  match hsIdentifier new with
  | none => .error .indexErr
  | some newId =>
    let ori1 := { ori with relations := ori.relations ++ [⟨"isReplacedBy", newId.url⟩] }
    let new1 :=
      if relsOfType new.relations "isVersionOf" = [] then new
      else { new with relations := deleteFirstRel new.relations "isVersionOf" }
    match hsIdentifier ori1 with
    | none => .error .indexErr
    | some oriId =>
      let new2 := { new1 with relations := new1.relations ++ [⟨"isVersionOf", oriId.url⟩] }
      .ok ({ ori1 with immutable := true }, new2)

/-- The store of resources keyed by short id. -/
abbrev World := List (String × VResource)

/-- Lookup by short id, `utils.get_resource_by_shortkey`. -/
def lookupRes : World → String → Option VResource
  | [], _ => none
  | (k, r) :: rest, pk => if k = pk then some r else lookupRes rest pk

/-- Delete every record stored under `pk` (`res.delete()`). -/
def removeRes : World → String → World
  | [], _ => []
  | (k, r) :: rest, pk =>
    if k = pk then removeRes rest pk else (k, r) :: removeRes rest pk

/-- Persist an updated resource under `pk`. -/
def updateRes : World → String → VResource → World
  | [], _, _ => []
  | (k, r) :: rest, pk, nr =>
    if k = pk then (k, nr) :: updateRes rest pk nr
    else (k, r) :: updateRes rest pk nr

/-- The function `delete_resource(pk)`: refuse to delete a superseded resource (one
holding an `isReplacedBy` relation); when the resource holds an
`isVersionOf` relation, promote the predecessor named by the url's last
path segment (drop its `isReplacedBy` edge and clear its immutability)
before deleting the resource itself. -/
def delete_resource (w : World) (pk : String) : Except LineageError World :=
  match lookupRes w pk with
  | none => .error .notFound
  | some res =>
    if relsOfType res.relations "isReplacedBy" ≠ [] then
      .error (.chainIntegrity chainMsg)
    else
      match (relsOfType res.relations "isVersionOf").head? with
      | none => .ok (removeRes w pk)
      | some rel =>
        match afterLastSlash rel.value with
        | none => .error .valueErr
        | some obsId =>
          match lookupRes w obsId with
          | none => .error .notFound
          | some obs =>
            if relsOfType obs.relations "isReplacedBy" ≠ [] then
              .ok (removeRes
                (updateRes w obsId
                  { obs with relations := deleteFirstRel obs.relations "isReplacedBy",
                             immutable := false }) pk)
            else
              .ok (removeRes w pk)

/-! ## Concrete instances

Small closed inputs on which the pipeline is evaluated. -/

/-- An environment in which every external collaborator succeeds: the
backend reports a `sha`-prefixed checksum, the bag collection exists, the
registries mint identifiers, and FairShake returns 200/201. -/
def envOK : Env :=
  { siteUrl := "https://www.commonsshare.org",
    irodsHome := "/commonsshareZone/home/wwwHydroProxy",
    collExists := true, bagModified := some "false",
    checksumOf := fun _ => .ok "sha2AAAA", sizeOf := fun _ => 42,
    bagChecksum := "bagsha", minidResult := .ok "ark:/57799/b9j69t",
    doiStatus := 200, doiId := "10.25491/demo", fairshakeAuthStatus := 200,
    fairshakeRegStatus := 201, fairshakeId := 117 }

/-- Environment `envOK` with a failing (HTTP 500) DataCite endpoint. -/
def envDoiFail : Env :=
  { envOK with doiStatus := 500 }

/-- Environment `envOK` with the backend collection missing. -/
def envNoColl : Env :=
  { envOK with collExists := false }

/-- Environment `envOK` whose checksum lookups raise a storage session error. -/
def envChkFail : Env :=
  { envOK with checksumOf := fun _ => .error "iRODS session failure" }

/-- A single stored (non-reference) file. -/
def fileA : ResourceFile :=
  { referencePath := none, storagePath := "abc123/data/contents/a.txt",
    size := 42, fileName := "a.txt" }

/-- A publishable single-file resource. -/
def resOne : PResource :=
  { shortId := "abc123", title := "Demo resource", canBePublished := true,
    files := [fileA] }

/-- A second stored file. -/
def fileB : ResourceFile :=
  { referencePath := none, storagePath := "abc123/data/contents/b.txt",
    size := 7, fileName := "b.txt" }

/-- A publishable two-file resource. -/
def resTwo : PResource :=
  { shortId := "abc123", title := "Demo resource", canBePublished := true,
    files := [fileA, fileB] }

/-- A publishable resource claiming no files. -/
def resEmpty : PResource :=
  { shortId := "abc123", title := "Demo resource", canBePublished := true,
    files := [] }

/-- A draft database state: private, mutable, shareable, no identifiers,
no metadata records. -/
def dbDraft : DB :=
  { res := { doi := "", minid := "", assessmentId := none },
    raccess := { publicFlag := false, discoverable := false, immutable := false,
                 shareable := true, published := false },
    identifiersMd := [], publishersMd := [], publishedDates := 0 }

/-- Canonical resource url as held by a `hydroShareIdentifier` element. -/
def resourceUrlOf (sid : String) : String :=
  "https://www.commonsshare.org/resource/" ++ sid

/-- An original resource `r1`, not yet versioned. -/
def vR1 : VResource :=
  { shortId := "r1", immutable := false, relations := [],
    mdIdentifiers := [{ name := "hydroShareIdentifier", url := resourceUrlOf "r1" }] }

/-- A placeholder resource `r2` that inherited an `isVersionOf` relation
from metadata copying. -/
def vR2inh : VResource :=
  { shortId := "r2", immutable := false,
    relations := [{ rtype := "isVersionOf", value := resourceUrlOf "r0" }],
    mdIdentifiers := [{ name := "hydroShareIdentifier", url := resourceUrlOf "r2" }] }

/-- Resource `r1` after having been superseded by `r2`: immutable, holding
`isReplacedBy` → `r2`. -/
def vR1sup : VResource :=
  { vR1 with immutable := true,
             relations := [{ rtype := "isReplacedBy", value := resourceUrlOf "r2" }] }

/-- Resource `r2` as chain head: holding `isVersionOf` → `r1`. -/
def vR2head : VResource :=
  { shortId := "r2", immutable := false,
    relations := [{ rtype := "isVersionOf", value := resourceUrlOf "r1" }],
    mdIdentifiers := [{ name := "hydroShareIdentifier", url := resourceUrlOf "r2" }] }

/-- A two-resource obsolescence chain `r1 ← r2`. -/
def worldChain : World :=
  [("r1", vR1sup), ("r2", vR2head)]

/-- Resource `r1` as promoted by deleting `r2`: its `isReplacedBy` edge removed and
its mutability restored. -/
def vR1promoted : VResource :=
  { vR1sup with relations := deleteFirstRel vR1sup.relations "isReplacedBy",
                immutable := false }

/-! ## Step lemmas for the publication pipeline -/

/-- A raising packaging step only touches `existsChecked` and `err`. -/
theorem packagingStep_inl_eq (env : Env) (res : PResource)
    (m : List ManifestEntry) (r r' : PubResult)
    (h : packagingStep env res m r = Sum.inl r') :
    ∃ ec e, r' = { r with existsChecked := ec, err := some e } := by
  unfold packagingStep at h
  repeat' split at h
  all_goals simp only [Sum.inl.injEq, reduceCtorEq] at h
  all_goals exact ⟨_, _, h.symm⟩

/-- A succeeding packaging step records the produced checksum, size and
download url and touches nothing else except its own effect flags. -/
theorem packagingStep_inr_eq (env : Env) (res : PResource)
    (m : List ManifestEntry) (r r' : PubResult) (p : PackInfo)
    (h : packagingStep env res m r = Sum.inr (p, r')) :
    ∃ ec av bc bd,
      r' = { r with existsChecked := ec, avuChecked := av, bagCreated := bc,
                    bagDownloaded := bd, shaUsed := some p.shaChecksum,
                    sizeUsed := some p.size, urlUsed := some p.downloadUrl } := by
  unfold packagingStep at h
  repeat' split at h
  all_goals simp only [Sum.inr.injEq, Prod.mk.injEq, reduceCtorEq] at h
  all_goals obtain ⟨h1, h2⟩ := h
  all_goals subst h1
  all_goals exact ⟨_, _, _, _, h2.symm⟩

/-- Packaging on at most one file with an empty manifest raises
`IndexError`. -/
theorem packagingStep_empty (env : Env) (res : PResource)
    (m : List ManifestEntry) (r : PubResult)
    (hn : ¬ 1 < res.files.length) (hh : m.head? = none) :
    packagingStep env res m r = Sum.inl { r with err := some .indexErr } := by
  unfold packagingStep
  simp [hn, hh]

/-- Packaging on at most one file whose manifest entry has no `sha256` key
raises `KeyError`. -/
theorem packagingStep_nosha (env : Env) (res : PResource)
    (m : List ManifestEntry) (r : PubResult) (e0 : ManifestEntry)
    (hn : ¬ 1 < res.files.length) (hh : m.head? = some e0)
    (hs : e0.sha256 = none) :
    packagingStep env res m r = Sum.inl { r with err := some (.keyErr "sha256") } := by
  unfold packagingStep
  simp [hn, hh, hs]

/-- Packaging on at most one file reuses the manifest entry's checksum,
length and url directly — the fast path. -/
theorem packagingStep_fastpath (env : Env) (res : PResource)
    (m : List ManifestEntry) (r : PubResult) (e0 : ManifestEntry) (sha : String)
    (hn : ¬ 1 < res.files.length) (hh : m.head? = some e0)
    (hs : e0.sha256 = some sha) :
    packagingStep env res m r =
      Sum.inr ({ shaChecksum := sha, size := e0.length,
                 fileFormat := "text/plain", downloadUrl := e0.url },
               { r with shaUsed := some sha, sizeUsed := some e0.length,
                        urlUsed := some e0.url }) := by
  unfold packagingStep
  simp [hn, hh, hs]

/-- Packaging on more than one file with a missing backend collection
raises the storage-integrity `ValidationError`. -/
theorem packagingStep_multi_nocoll (env : Env) (res : PResource)
    (m : List ManifestEntry) (r : PubResult)
    (hn : 1 < res.files.length) (hc : env.collExists = false) :
    packagingStep env res m r =
      Sum.inl { r with existsChecked := true,
                       err := some (.validationErr (storageIntegrityMsg res.shortId)) } := by
  unfold packagingStep
  simp [hn, hc]

/-- A raising mint step has performed the minting call and touches nothing
but `mintCalled` and `err`. -/
theorem mintStep_inl_eq (env : Env) (o : ResourceRec) (pt : String)
    (p : PackInfo) (r r' : PubResult)
    (h : mintStep env o pt p r = Sum.inl r') :
    ∃ e, r' = { r with mintCalled := true, err := some e } := by
  unfold mintStep at h
  repeat' split at h
  all_goals simp only [Sum.inl.injEq, reduceCtorEq] at h
  all_goals exact ⟨_, h.symm⟩

/-- A succeeding mint step removes the scratch directory and touches
nothing else but `mintCalled`. -/
theorem mintStep_inr_eq (env : Env) (o : ResourceRec) (pt : String)
    (p : PackInfo) (r r' : PubResult) (mi : MintInfo)
    (h : mintStep env o pt p r = Sum.inr (mi, r')) :
    ∃ mc, r' = { r with mintCalled := mc, tmpdirRemoved := true } := by
  unfold mintStep at h
  repeat' split at h
  all_goals simp only [Sum.inr.injEq, Prod.mk.injEq, reduceCtorEq] at h
  all_goals obtain ⟨h1, h2⟩ := h
  all_goals exact ⟨_, h2.symm⟩

/-- When a mint step succeeds with a bound `ident_md_args`, the branch
taken was the minid or the DOI branch, and exactly the corresponding
identifier field was set while the other was cleared. -/
theorem mintStep_inr_identSome (env : Env) (o : ResourceRec) (pt : String)
    (p : PackInfo) (r r' : PubResult) (mi : MintInfo) (md : MdElement)
    (h : mintStep env o pt p r = Sum.inr (mi, r'))
    (hmd : mi.identMd = some md) :
    (∃ ident, env.minidResult = .ok ident ∧ mi.newMinid = ident ∧ mi.newDoi = "") ∨
    (mi.newDoi = env.doiId ∧ mi.newMinid = "") := by
  unfold mintStep at h
  repeat' split at h
  all_goals simp only [Sum.inr.injEq, Prod.mk.injEq, reduceCtorEq] at h
  · rename_i ident heq
    exact Or.inl ⟨ident, heq, by rw [← h.1], by rw [← h.1]⟩
  · exact Or.inr ⟨by rw [← h.1], by rw [← h.1]⟩
  · rw [← h.1] at hmd; simp at hmd

/-- The minid branch on a raising registry client propagates the
exception without removing the scratch directory. -/
theorem mintStep_minid_err (env : Env) (o : ResourceRec) (pt : String)
    (p : PackInfo) (r : PubResult) (msg : String)
    (hm : strLower pt = "minid") (hr : env.minidResult = .error msg) :
    mintStep env o pt p r =
      Sum.inl { r with mintCalled := true, err := some (.externalErr msg) } := by
  unfold mintStep
  simp [hm, hr]

/-- The DOI branch on a non-200 DataCite response raises
`PublishException` without removing the scratch directory. -/
theorem mintStep_doi_fail (env : Env) (o : ResourceRec) (pt : String)
    (p : PackInfo) (r : PubResult)
    (hm : strLower pt = "doi") (hst : env.doiStatus ≠ 200) :
    mintStep env o pt p r =
      Sum.inl { r with mintCalled := true, err := some (.publishExc doiFailMsg) } := by
  unfold mintStep
  simp [hm, hst]

/-- A publish type matching neither branch performs no minting call,
leaves the identifier fields as they were, and leaves `ident_md_args`
unbound. -/
theorem mintStep_unknown (env : Env) (o : ResourceRec) (pt : String)
    (p : PackInfo) (r : PubResult)
    (h1 : strLower pt ≠ "minid") (h2 : strLower pt ≠ "doi") :
    mintStep env o pt p r =
      Sum.inr ({ newDoi := o.doi, newMinid := o.minid, identMd := none },
               { r with tmpdirRemoved := true }) := by
  unfold mintStep
  simp [h1, h2]

/-- A raising registration step has called FairShake authentication and
raises `PublishException`, touching only its own flags and `err`. -/
theorem registrationStep_inl_eq (env : Env) (r r' : PubResult)
    (h : registrationStep env r = Sum.inl r') :
    ∃ rc, r' = { r with fairshakeAuthCalled := true, fairshakeRegCalled := rc,
                        err := some (.publishExc fairshakeFailMsg) } := by
  unfold registrationStep at h
  repeat' split at h
  all_goals simp only [Sum.inl.injEq, reduceCtorEq] at h
  all_goals exact ⟨_, h.symm⟩

/-- A succeeding registration step returns the FairShake assessment id and
records both calls. -/
theorem registrationStep_inr_eq (env : Env) (r r' : PubResult) (aid : Nat)
    (h : registrationStep env r = Sum.inr (aid, r')) :
    aid = env.fairshakeId ∧
    r' = { r with fairshakeAuthCalled := true, fairshakeRegCalled := true } := by
  unfold registrationStep at h
  repeat' split at h
  all_goals simp only [Sum.inr.injEq, Prod.mk.injEq, reduceCtorEq] at h
  exact ⟨h.1.symm, h.2.symm⟩

/-- Registration succeeds exactly on a 200 auth response and a 201
registration response. -/
theorem registrationStep_ok (env : Env) (r : PubResult)
    (h1 : env.fairshakeAuthStatus = 200) (h2 : env.fairshakeRegStatus = 201) :
    registrationStep env r =
      Sum.inr (env.fairshakeId,
               { r with fairshakeAuthCalled := true, fairshakeRegCalled := true }) := by
  unfold registrationStep
  simp [h1, h2]

/-- With `ident_md_args` unbound, the commit persists everything up to the
published date and then raises `UnboundLocalError` at the `Identifier`
element creation. -/
theorem commitStep_none (db0 : DB) (mint : MintInfo) (aid : Nat) (r : PubResult)
    (h : mint.identMd = none) :
    commitStep db0 mint aid r =
      { r with db := dbCommitted db0 mint aid,
               err := some (.nameErr "ident_md_args") } := by
  unfold commitStep dbCommitted
  simp [h]

/-- With `ident_md_args` bound, the commit persists everything including
the `Identifier` element and returns without error. -/
theorem commitStep_some (db0 : DB) (mint : MintInfo) (aid : Nat) (r : PubResult)
    (md : MdElement) (h : mint.identMd = some md) :
    commitStep db0 mint aid r =
      { r with db := { dbCommitted db0 mint aid with
                       identifiersMd := db0.identifiersMd ++ [md] } } := by
  unfold commitStep dbCommitted
  simp [h]

/-- An ineligible resource fails the precondition check with zero side
effects. -/
theorem publish_ineligible (env : Env) (res : PResource) (db0 : DB) (pt : String)
    (h : res.canBePublished = false) :
    publish_resource env res db0 pt =
      { initState db0 with err := some (.validationErr ineligibleMsg) } := by
  unfold publish_resource
  simp [h]

/-- On an eligible resource the pipeline is the composition of the four
steps. -/
theorem publish_eligible (env : Env) (res : PResource) (db0 : DB) (pt : String)
    (h : res.canBePublished = true) :
    publish_resource env res db0 pt =
      match packagingStep env res (get_resource_files_manifest env res.shortId res.files)
          { initState db0 with tmpdirCreated := true } with
      | Sum.inl rerr => rerr
      | Sum.inr (pack, r5) => publishTail env db0 pt pack r5 := by
  unfold publish_resource
  simp [h]


/-- The post-packaging tail of the pipeline never touches the packaging
effect flags, the recorded checksum/size/url, or the scratch-creation
flag. -/
theorem publishTail_preserves (env : Env) (db0 : DB) (pt : String)
    (pack : PackInfo) (r5 : PubResult) :
    (publishTail env db0 pt pack r5).existsChecked = r5.existsChecked ∧
    (publishTail env db0 pt pack r5).avuChecked = r5.avuChecked ∧
    (publishTail env db0 pt pack r5).bagCreated = r5.bagCreated ∧
    (publishTail env db0 pt pack r5).bagDownloaded = r5.bagDownloaded ∧
    (publishTail env db0 pt pack r5).shaUsed = r5.shaUsed ∧
    (publishTail env db0 pt pack r5).sizeUsed = r5.sizeUsed ∧
    (publishTail env db0 pt pack r5).urlUsed = r5.urlUsed ∧
    (publishTail env db0 pt pack r5).tmpdirCreated = r5.tmpdirCreated := by
  unfold publishTail
  rcases hmt : mintStep env db0.res pt pack r5 with rerr | ⟨mint, r7⟩ <;> simp only [hmt]
  · obtain ⟨e, rfl⟩ := mintStep_inl_eq _ _ _ _ _ _ hmt
    simp
  · obtain ⟨mc, hr7⟩ := mintStep_inr_eq _ _ _ _ _ _ _ hmt
    rcases hrg : registrationStep env r7 with rerr | ⟨aid, r9⟩ <;> simp only [hrg]
    · obtain ⟨rc, rfl⟩ := registrationStep_inl_eq _ _ _ hrg
      simp [hr7]
    · obtain ⟨haid, hr9⟩ := registrationStep_inr_eq _ _ _ _ hrg
      rcases hmd : mint.identMd with _ | md
      · rw [commitStep_none _ _ _ _ hmd]
        simp [hr9, hr7]
      · rw [commitStep_some _ _ _ _ md hmd]
        simp [hr9, hr7]

/-- When the post-packaging tail finishes without error, the minting
branch bound `ident_md_args` to some element `md`, the scratch directory
was removed, and the persisted state is exactly the committed one
including the new `Identifier` element. -/
theorem publishTail_success (env : Env) (db0 : DB) (pt : String)
    (pack : PackInfo) (r5 : PubResult)
    (hs : (publishTail env db0 pt pack r5).err = none) :
    ∃ mint md r7,
      mintStep env db0.res pt pack r5 = Sum.inr (mint, r7) ∧
      mint.identMd = some md ∧
      (publishTail env db0 pt pack r5).db =
        { dbCommitted db0 mint env.fairshakeId with
          identifiersMd := db0.identifiersMd ++ [md] } ∧
      (publishTail env db0 pt pack r5).tmpdirRemoved = true := by
  unfold publishTail at hs ⊢
  rcases hmt : mintStep env db0.res pt pack r5 with rerr | ⟨mint, r7⟩ <;>
    simp only [hmt] at hs ⊢
  · obtain ⟨e, rfl⟩ := mintStep_inl_eq _ _ _ _ _ _ hmt
    simp at hs
  · obtain ⟨mc, hr7⟩ := mintStep_inr_eq _ _ _ _ _ _ _ hmt
    rcases hrg : registrationStep env r7 with rerr | ⟨aid, r9⟩ <;>
      simp only [hrg] at hs ⊢
    · obtain ⟨rc, rfl⟩ := registrationStep_inl_eq _ _ _ hrg
      simp at hs
    · obtain ⟨haid, hr9⟩ := registrationStep_inr_eq _ _ _ _ hrg
      rcases hmd : mint.identMd with _ | md
      · rw [commitStep_none _ _ _ _ hmd] at hs
        simp at hs
      · rw [commitStep_some _ _ _ _ md hmd]
        refine ⟨mint, md, r7, rfl, hmd, by simp [haid], ?_⟩
        simp [hr9, hr7]

/-! ## Helper lemmas on relations and the resource store -/

/-- Filtering after deleting the first relation of type `t` drops exactly
the head of the filtered list. -/
theorem relsOfType_deleteFirstRel (rs : List Relation) (t : String) :
    relsOfType (deleteFirstRel rs t) t = (relsOfType rs t).tail := by
  induction rs with
  | nil => simp [deleteFirstRel, relsOfType]
  | cons r rest ih =>
    by_cases h : r.rtype = t
    · simp [deleteFirstRel, relsOfType, h]
    · simp only [relsOfType] at ih
      simp [deleteFirstRel, relsOfType, h, ih]

/-- Filtering by type distributes over append. -/
theorem relsOfType_append (rs1 rs2 : List Relation) (t : String) :
    relsOfType (rs1 ++ rs2) t = relsOfType rs1 t ++ relsOfType rs2 t := by
  simp [relsOfType, List.filter_append]

/-- A deleted key is no longer found. -/
theorem lookupRes_removeRes_self (w : World) (pk : String) :
    lookupRes (removeRes w pk) pk = none := by
  induction w with
  | nil => rfl
  | cons p rest ih =>
    obtain ⟨k, r⟩ := p
    by_cases h : k = pk <;> simp [removeRes, lookupRes, h, ih]

/-- Deleting one key does not change lookups of another. -/
theorem lookupRes_removeRes_ne (w : World) (pk k : String) (h : k ≠ pk) :
    lookupRes (removeRes w pk) k = lookupRes w k := by
  induction w with
  | nil => rfl
  | cons p rest ih =>
    obtain ⟨k1, r⟩ := p
    by_cases h1 : k1 = pk
    · subst h1
      have h2 : k1 ≠ k := fun hk => h hk.symm
      simp [removeRes, lookupRes, h2, ih]
    · by_cases h2 : k1 = k
      · subst h2
        simp [removeRes, lookupRes, h1, h, ih]
      · simp [removeRes, lookupRes, h1, h2, ih]

/-- Updating a present key makes lookups return the new value. -/
theorem lookupRes_updateRes_self (w : World) (pk : String) (nr r0 : VResource)
    (h : lookupRes w pk = some r0) :
    lookupRes (updateRes w pk nr) pk = some nr := by
  induction w with
  | nil => simp [lookupRes] at h
  | cons p rest ih =>
    obtain ⟨k1, r⟩ := p
    by_cases h1 : k1 = pk
    · simp [updateRes, lookupRes, h1]
    · simp [updateRes, lookupRes, h1] at h ⊢
      exact ih h

/-- Updating one key does not change lookups of another. -/
theorem lookupRes_updateRes_ne (w : World) (pk k : String) (nr : VResource)
    (h : k ≠ pk) :
    lookupRes (updateRes w pk nr) k = lookupRes w k := by
  induction w with
  | nil => rfl
  | cons p rest ih =>
    obtain ⟨k1, r⟩ := p
    by_cases h1 : k1 = pk
    · subst h1
      have h2 : k1 ≠ k := fun hk => h hk.symm
      simp [updateRes, lookupRes, h2, ih]
    · by_cases h2 : k1 = k
      · subst h2
        simp [updateRes, lookupRes, h1, ih]
      · simp [updateRes, lookupRes, h1, h2, ih]

/-- The lookup `hsIdentifier` only reads the metadata identifiers, not the
relations. -/
theorem hsIdentifier_relations (r : VResource) (rs : List Relation) :
    hsIdentifier { r with relations := rs } = hsIdentifier r := rfl

/-! ## Claims -/

/-- C6: a resource file whose backend checksum lookup raises a storage
session error still yields a manifest entry, with `url` and `length`
populated and neither `sha256` nor `md5` present; and the manifest has
exactly one entry per resource file, in file enumeration order. -/
theorem manifest_entry_on_checksum_failure (env : Env) (sid : String)
    (files : List ResourceFile) (i : Nat) (f : ResourceFile) (msg : String)
    (hf : files[i]? = some f)
    (hfail : env.checksumOf (srcPath env f) = .error msg) :
    (get_resource_files_manifest env sid files).length = files.length ∧
    (get_resource_files_manifest env sid files)[i]? =
      some { url := fetchUrlOf env sid f, length := lengthOf env f,
             filename := filenameOf f, sha256 := none, md5 := none } := by
  constructor
  · simp [get_resource_files_manifest]
  · simp only [get_resource_files_manifest, List.getElem?_map, hf, Option.map_some]
    simp [manifestEntryFor, hfail, addChecksum]

/-- Witness for C6 at a concrete file whose checksum lookup fails. -/
theorem manifest_entry_on_checksum_failure_witness :
    [fileA][0]? = some fileA ∧
    envChkFail.checksumOf (srcPath envChkFail fileA) = .error "iRODS session failure" ∧
    ((get_resource_files_manifest envChkFail "abc123" [fileA]).length = 1 ∧
     (get_resource_files_manifest envChkFail "abc123" [fileA])[0]? =
       some { url := fetchUrlOf envChkFail "abc123" fileA,
              length := lengthOf envChkFail fileA,
              filename := filenameOf fileA, sha256 := none, md5 := none }) :=
  ⟨by decide, rfl,
   manifest_entry_on_checksum_failure envChkFail "abc123" [fileA] 0 fileA
     "iRODS session failure" (by decide) rfl⟩

/-- On a resource with at most one file, no run of `publish_resource` ever
checks collection existence, consults the bag-freshness flag, rebuilds the
bag, or downloads the archive. -/
theorem publish_fastpath_preserves (env : Env) (res : PResource) (db0 : DB)
    (pt : String) (hn : ¬ 1 < res.files.length) :
    (publish_resource env res db0 pt).existsChecked = false ∧
    (publish_resource env res db0 pt).avuChecked = false ∧
    (publish_resource env res db0 pt).bagCreated = false ∧
    (publish_resource env res db0 pt).bagDownloaded = false := by
  cases hcan : res.canBePublished with
  | false => rw [publish_ineligible env res db0 pt hcan]; simp [initState]
  | true =>
    rw [publish_eligible env res db0 pt hcan]
    rcases hh : (get_resource_files_manifest env res.shortId res.files).head? with _ | e0
    · rw [packagingStep_empty env res _ _ hn hh]
      simp [initState]
    · rcases hsha : e0.sha256 with _ | sha
      · rw [packagingStep_nosha env res _ _ e0 hn hh hsha]
        simp [initState]
      · rw [packagingStep_fastpath env res _ _ e0 sha hn hh hsha]
        obtain ⟨p1, p2, p3, p4, _, _, _, _⟩ := publishTail_preserves env db0 pt
          { shaChecksum := sha, size := e0.length, fileFormat := "text/plain",
            downloadUrl := e0.url }
          { initState db0 with tmpdirCreated := true, shaUsed := some sha,
                               sizeUsed := some e0.length, urlUsed := some e0.url }
        refine ⟨?_, ?_, ?_, ?_⟩ <;> simp_all [initState]

/-- C10: on a resource with at most one file whose manifest is empty or
whose single entry lacks a `sha256` field, `publish_resource` raises the
fast path's `IndexError` / `KeyError` before any identifier-minting or
registration call and before any persisted state changes. -/
theorem publish_fast_path_lookup_failure_precedes_effects
    (env : Env) (res : PResource) (db0 : DB) (pt : String)
    (hn : res.files.length ≤ 1) (hpub : res.canBePublished = true)
    (hbad : (get_resource_files_manifest env res.shortId res.files).head? = none ∨
      ∃ e0, (get_resource_files_manifest env res.shortId res.files).head? = some e0 ∧
        e0.sha256 = none) :
    ((publish_resource env res db0 pt).err = some .indexErr ∨
     (publish_resource env res db0 pt).err = some (.keyErr "sha256")) ∧
    (publish_resource env res db0 pt).mintCalled = false ∧
    (publish_resource env res db0 pt).fairshakeAuthCalled = false ∧
    (publish_resource env res db0 pt).db = db0 := by
  have hn' : ¬ 1 < res.files.length := by omega
  rw [publish_eligible env res db0 pt hpub]
  rcases hbad with hh | ⟨e0, hh, hsha⟩
  · rw [packagingStep_empty env res _ _ hn' hh]
    simp [initState]
  · rw [packagingStep_nosha env res _ _ e0 hn' hh hsha]
    simp [initState]

/-- Witness for C10: a zero-file resource raises `IndexError` with nothing
minted, nothing registered and the database untouched. -/
theorem publish_fast_path_lookup_failure_witness :
    (1 ≤ 1 ∧ resEmpty.canBePublished = true ∧
     (get_resource_files_manifest envOK resEmpty.shortId resEmpty.files).head? = none) ∧
    (((publish_resource envOK resEmpty dbDraft "minid").err = some .indexErr ∨
      (publish_resource envOK resEmpty dbDraft "minid").err = some (.keyErr "sha256")) ∧
     (publish_resource envOK resEmpty dbDraft "minid").mintCalled = false ∧
     (publish_resource envOK resEmpty dbDraft "minid").fairshakeAuthCalled = false ∧
     (publish_resource envOK resEmpty dbDraft "minid").db = dbDraft) :=
  ⟨⟨by decide, by decide, by decide⟩,
   publish_fast_path_lookup_failure_precedes_effects envOK resEmpty dbDraft "minid"
     (by decide) (by decide) (Or.inl (by decide))⟩

/-- C2: whenever the publish type is DOI and the DataCite call returns a
non-200 response, `publish_resource` raises, the persisted state (access
flags, identifier fields, `Identifier` / `Publisher` metadata records) is
unchanged, and if the run reached the minting call the raised error is
exactly the DOI `PublishException`. -/
theorem publish_doi_mint_failure_leaves_state_unchanged
    (env : Env) (res : PResource) (db0 : DB) (pt : String)
    (hpt : strLower pt = "doi") (hst : env.doiStatus ≠ 200) :
    ((publish_resource env res db0 pt).err.isSome ∧
     (publish_resource env res db0 pt).db = db0) ∧
    ((publish_resource env res db0 pt).mintCalled = true →
      (publish_resource env res db0 pt).err = some (.publishExc doiFailMsg)) := by
  cases hcan : res.canBePublished with
  | false => rw [publish_ineligible env res db0 pt hcan]; simp [initState]
  | true =>
    rw [publish_eligible env res db0 pt hcan]
    rcases hpk : packagingStep env res _ _ with rerr | ⟨pack, r5⟩
    · simp only [hpk]
      obtain ⟨ec, e, rfl⟩ := packagingStep_inl_eq _ _ _ _ _ hpk
      simp [initState]
    · simp only [hpk]
      obtain ⟨ec, av, bc, bd, hr5⟩ := packagingStep_inr_eq _ _ _ _ _ _ hpk
      unfold publishTail
      rw [mintStep_doi_fail env db0.res pt pack r5 hpt hst]
      simp [hr5, initState]

/-- Witness for C2 at a concrete failing DataCite endpoint. -/
theorem publish_doi_mint_failure_witness :
    (strLower "doi" = "doi" ∧ envDoiFail.doiStatus ≠ 200) ∧
    (((publish_resource envDoiFail resOne dbDraft "doi").err.isSome ∧
      (publish_resource envDoiFail resOne dbDraft "doi").db = dbDraft) ∧
     ((publish_resource envDoiFail resOne dbDraft "doi").mintCalled = true →
       (publish_resource envDoiFail resOne dbDraft "doi").err =
         some (.publishExc doiFailMsg))) :=
  ⟨⟨by decide, by decide⟩,
   publish_doi_mint_failure_leaves_state_unchanged envDoiFail resOne dbDraft "doi"
     (by decide) (by decide)⟩

/-- C3: a resource with exactly one file never has the bag-freshness
check, bag creation, or archive download performed, and the
checksum/size/download-url handed to identifier minting are taken
directly from the single manifest entry. -/
theorem publish_single_file_fast_path
    (env : Env) (res : PResource) (db0 : DB) (pt : String)
    (hone : res.files.length = 1) :
    ((publish_resource env res db0 pt).existsChecked = false ∧
     (publish_resource env res db0 pt).avuChecked = false ∧
     (publish_resource env res db0 pt).bagCreated = false ∧
     (publish_resource env res db0 pt).bagDownloaded = false) ∧
    (∀ e0 sha,
      (get_resource_files_manifest env res.shortId res.files).head? = some e0 →
      e0.sha256 = some sha → res.canBePublished = true →
      (publish_resource env res db0 pt).shaUsed = some sha ∧
      (publish_resource env res db0 pt).sizeUsed = some e0.length ∧
      (publish_resource env res db0 pt).urlUsed = some e0.url) := by
  have hn : ¬ 1 < res.files.length := by omega
  refine ⟨publish_fastpath_preserves env res db0 pt hn, ?_⟩
  intro e0 sha hh hsha hcan
  rw [publish_eligible env res db0 pt hcan]
  rw [packagingStep_fastpath env res _ _ e0 sha hn hh hsha]
  obtain ⟨_, _, _, _, p5, p6, p7, _⟩ := publishTail_preserves env db0 pt
    { shaChecksum := sha, size := e0.length, fileFormat := "text/plain",
      downloadUrl := e0.url }
    { initState db0 with tmpdirCreated := true, shaUsed := some sha,
                         sizeUsed := some e0.length, urlUsed := some e0.url }
  exact ⟨by rw [p5], by rw [p6], by rw [p7]⟩

/-- Witness for C3 on a concrete single-file resource. -/
theorem publish_single_file_fast_path_witness :
    resOne.files.length = 1 ∧
    (((publish_resource envOK resOne dbDraft "minid").existsChecked = false ∧
      (publish_resource envOK resOne dbDraft "minid").avuChecked = false ∧
      (publish_resource envOK resOne dbDraft "minid").bagCreated = false ∧
      (publish_resource envOK resOne dbDraft "minid").bagDownloaded = false) ∧
     ((publish_resource envOK resOne dbDraft "minid").shaUsed =
        some (b64ToHex "AAAA") ∧
      (publish_resource envOK resOne dbDraft "minid").sizeUsed = some 42 ∧
      (publish_resource envOK resOne dbDraft "minid").urlUsed =
        some (fetchUrlOf envOK "abc123" fileA))) :=
  ⟨by decide,
   ⟨(publish_single_file_fast_path envOK resOne dbDraft "minid" (by decide)).1,
    (publish_single_file_fast_path envOK resOne dbDraft "minid" (by decide)).2
      (manifestEntryFor envOK resOne.shortId fileA) (b64ToHex "AAAA")
      (by decide) (by decide) (by decide)⟩⟩

/-- Counterexample to C8 as stated: a single-file resource whose backend
collection does not exist is published without any storage-integrity
failure — the collection-existence check is never performed, so the claim
"regardless of whether the resource has one file or more than one file"
is false. -/
theorem publish_no_collection_single_file_no_error :
    (publish_resource envNoColl resOne dbDraft "minid").existsChecked = false ∧
    (publish_resource envNoColl resOne dbDraft "minid").err = none := by decide

/-- C8 (amended): only a resource with more than one file fails with the
storage-integrity `ValidationError` when its backend collection does not
exist; a resource with at most one file never has the existence check
performed. -/
theorem publish_storage_integrity_only_multifile
    (env : Env) (res : PResource) (db0 : DB) (pt : String)
    (hpub : res.canBePublished = true) (hcoll : env.collExists = false) :
    (1 < res.files.length →
      publish_resource env res db0 pt =
        { initState db0 with tmpdirCreated := true, existsChecked := true,
                             err := some (.validationErr (storageIntegrityMsg res.shortId)) }) ∧
    (res.files.length ≤ 1 →
      (publish_resource env res db0 pt).existsChecked = false) := by
  constructor
  · intro hn
    rw [publish_eligible env res db0 pt hpub]
    rw [packagingStep_multi_nocoll env res _ _ hn hcoll]
  · intro hn
    exact (publish_fastpath_preserves env res db0 pt (by omega)).1

/-- Witness for the amended C8 on a concrete two-file resource with a
missing backend collection. -/
theorem publish_storage_integrity_only_multifile_witness :
    (resTwo.canBePublished = true ∧ envNoColl.collExists = false ∧
     1 < resTwo.files.length) ∧
    publish_resource envNoColl resTwo dbDraft "doi" =
      { initState dbDraft with tmpdirCreated := true, existsChecked := true,
                               err := some (.validationErr (storageIntegrityMsg resTwo.shortId)) } :=
  ⟨⟨by decide, by decide, by decide⟩,
   (publish_storage_integrity_only_multifile envNoColl resTwo dbDraft "doi"
      (by decide) (by decide)).1 (by decide)⟩

/-- C9: a publish type that is neither "minid" nor "doi" (after
lowercasing) skips both minting branches without failing, still performs
the FairShake calls, persists the flipped access flags and the saved
resource record (with no external identifier set), and only then raises
the unbound-local error at the `Identifier` element creation. -/
theorem publish_unknown_type_commits_then_raises
    (env : Env) (res : PResource) (db0 : DB) (pt : String)
    (h1 : strLower pt ≠ "minid") (h2 : strLower pt ≠ "doi")
    (hpub : res.canBePublished = true)
    (hn : ¬ 1 < res.files.length) (e0 : ManifestEntry) (sha : String)
    (hh : (get_resource_files_manifest env res.shortId res.files).head? = some e0)
    (hsha : e0.sha256 = some sha)
    (hauth : env.fairshakeAuthStatus = 200) (hreg : env.fairshakeRegStatus = 201) :
    (publish_resource env res db0 pt).err = some (.nameErr "ident_md_args") ∧
    (publish_resource env res db0 pt).mintCalled = false ∧
    (publish_resource env res db0 pt).fairshakeAuthCalled = true ∧
    (publish_resource env res db0 pt).fairshakeRegCalled = true ∧
    (publish_resource env res db0 pt).db =
      dbCommitted db0
        { newDoi := db0.res.doi, newMinid := db0.res.minid, identMd := none }
        env.fairshakeId := by
  simp only [publish_eligible env res db0 pt hpub,
    packagingStep_fastpath env res _ _ e0 sha hn hh hsha,
    publishTail,
    mintStep_unknown env db0.res pt _ _ h1 h2,
    registrationStep_ok env _ hauth hreg]
  simp [commitStep, dbCommitted, initState]

/-- Witness for C9 with the unrecognised publish type "ark". -/
theorem publish_unknown_type_witness :
    (strLower "ark" ≠ "minid" ∧ strLower "ark" ≠ "doi") ∧
    ((publish_resource envOK resOne dbDraft "ark").err =
       some (.nameErr "ident_md_args") ∧
     (publish_resource envOK resOne dbDraft "ark").mintCalled = false ∧
     (publish_resource envOK resOne dbDraft "ark").fairshakeAuthCalled = true ∧
     (publish_resource envOK resOne dbDraft "ark").fairshakeRegCalled = true ∧
     (publish_resource envOK resOne dbDraft "ark").db =
       dbCommitted dbDraft
         { newDoi := dbDraft.res.doi, newMinid := dbDraft.res.minid, identMd := none }
         envOK.fairshakeId) :=
  ⟨⟨by decide, by decide⟩,
   publish_unknown_type_commits_then_raises envOK resOne dbDraft "ark"
     (by decide) (by decide) (by decide) (by decide)
     (manifestEntryFor envOK resOne.shortId fileA) (b64ToHex "AAAA")
     (by decide) (by decide) (by decide) (by decide)⟩

/-- Counterexample to C7 as stated: on a DOI-minting failure the scratch
directory created for packaging is never removed — the cleanup at line
1049 is skipped by the raise at line 1037. -/
theorem publish_tmpdir_leak_on_doi_failure :
    (publish_resource envDoiFail resOne dbDraft "doi").tmpdirCreated = true ∧
    (publish_resource envDoiFail resOne dbDraft "doi").tmpdirRemoved = false ∧
    (publish_resource envDoiFail resOne dbDraft "doi").err =
      some (.publishExc doiFailMsg) := by decide

/-- C7 (amended): the scratch directory is removed on the success path
(and on any run that reaches the FairShake calls), but on a failure at or
before identifier minting it is not removed. -/
theorem publish_tmpdir_removed_on_success
    (env : Env) (res : PResource) (db0 : DB) (pt : String)
    (hs : (publish_resource env res db0 pt).err = none) :
    (publish_resource env res db0 pt).tmpdirCreated = true ∧
    (publish_resource env res db0 pt).tmpdirRemoved = true := by
  cases hcan : res.canBePublished with
  | false =>
    rw [publish_ineligible env res db0 pt hcan] at hs
    simp [initState] at hs
  | true =>
    rw [publish_eligible env res db0 pt hcan] at hs ⊢
    rcases hpk : packagingStep env res
        (get_resource_files_manifest env res.shortId res.files)
        { initState db0 with tmpdirCreated := true } with rerr | ⟨pack, r5⟩ <;>
      simp only [hpk] at hs ⊢
    · obtain ⟨ec, e, rfl⟩ := packagingStep_inl_eq _ _ _ _ _ hpk
      simp at hs
    · obtain ⟨ec, av, bc, bd, hr5⟩ := packagingStep_inr_eq _ _ _ _ _ _ hpk
      obtain ⟨mint, md, r7, hmt, hmd, hdb, hrm⟩ :=
        publishTail_success env db0 pt pack r5 hs
      refine ⟨?_, hrm⟩
      have hp := (publishTail_preserves env db0 pt pack r5).2.2.2.2.2.2.2
      rw [hp, hr5]

/-- Witness for the amended C7 on a concrete successful publish. -/
theorem publish_tmpdir_removed_on_success_witness :
    (publish_resource envOK resOne dbDraft "minid").err = none ∧
    (publish_resource envOK resOne dbDraft "minid").tmpdirCreated = true ∧
    (publish_resource envOK resOne dbDraft "minid").tmpdirRemoved = true :=
  ⟨by decide,
   publish_tmpdir_removed_on_success envOK resOne dbDraft "minid" (by decide)⟩

/-- C1: on every input on which `publish_resource` returns without
raising, exactly one of the persisted DOI and minid fields is non-empty
(the minting branch cleared the other in the same operation), and the
persisted access flags are `public = discoverable = immutable = published
= true` and `shareable = false`.  The first two hypotheses say the
external registries mint non-empty identifier strings. -/
theorem publish_success_identifier_exclusive_and_flags
    (env : Env) (res : PResource) (db0 : DB) (pt : String)
    (hmnid : ∀ s, env.minidResult = Except.ok s → s ≠ "")
    (hdoi : env.doiId ≠ "")
    (hs : (publish_resource env res db0 pt).err = none) :
    (((publish_resource env res db0 pt).db.res.doi = "" ∧
      (publish_resource env res db0 pt).db.res.minid ≠ "") ∨
     ((publish_resource env res db0 pt).db.res.doi ≠ "" ∧
      (publish_resource env res db0 pt).db.res.minid = "")) ∧
    (publish_resource env res db0 pt).db.raccess =
      { publicFlag := true, discoverable := true, immutable := true,
        shareable := false, published := true } := by
  cases hcan : res.canBePublished with
  | false =>
    rw [publish_ineligible env res db0 pt hcan] at hs
    simp [initState] at hs
  | true =>
    rw [publish_eligible env res db0 pt hcan] at hs ⊢
    rcases hpk : packagingStep env res
        (get_resource_files_manifest env res.shortId res.files)
        { initState db0 with tmpdirCreated := true } with rerr | ⟨pack, r5⟩ <;>
      simp only [hpk] at hs ⊢
    · obtain ⟨ec, e, rfl⟩ := packagingStep_inl_eq _ _ _ _ _ hpk
      simp at hs
    · obtain ⟨mint, md, r7, hmt, hmd, hdb, hrm⟩ :=
        publishTail_success env db0 pt pack r5 hs
      rw [hdb]
      constructor
      · rcases mintStep_inr_identSome env db0.res pt pack r5 r7 mint md hmt hmd with
          ⟨ident, hok, hmi, hdo⟩ | ⟨hdo, hmi⟩
        · exact Or.inl ⟨by simp [dbCommitted, hdo],
            by simp [dbCommitted, hmi]; exact hmnid ident hok⟩
        · exact Or.inr ⟨by simp [dbCommitted, hdo]; exact hdoi,
            by simp [dbCommitted, hmi]⟩
      · simp [dbCommitted]

/-- Witness for C1 on a concrete successful minid publish. -/
theorem publish_success_identifier_exclusive_witness :
    (publish_resource envOK resOne dbDraft "minid").err = none ∧
    ((((publish_resource envOK resOne dbDraft "minid").db.res.doi = "" ∧
       (publish_resource envOK resOne dbDraft "minid").db.res.minid ≠ "") ∨
      ((publish_resource envOK resOne dbDraft "minid").db.res.doi ≠ "" ∧
       (publish_resource envOK resOne dbDraft "minid").db.res.minid = "")) ∧
     (publish_resource envOK resOne dbDraft "minid").db.raccess =
       { publicFlag := true, discoverable := true, immutable := true,
         shareable := false, published := true }) :=
  ⟨by decide,
   publish_success_identifier_exclusive_and_flags envOK resOne dbDraft "minid"
     (by intro s h; injection h with h; subst h; decide) (by decide) (by decide)⟩

/-- C4: creating a new version gives the new resource an `isVersionOf`
relation to the original's canonical url and the original an
`isReplacedBy` relation to the new resource's canonical url, marks the
original immutable, and deletes any single inherited `isVersionOf`
relation first, so the new resource ends with exactly one `isVersionOf`
relation. -/
theorem new_version_relations_and_immutability
    (ori new : VResource) (oriId newId : MdElement)
    (hOri : hsIdentifier ori = some oriId)
    (hNew : hsIdentifier new = some newId)
    (hcount : (relsOfType new.relations "isVersionOf").length ≤ 1) :
    ∃ ori2 new2,
      create_new_version_resource ori new = .ok (ori2, new2) ∧
      relsOfType new2.relations "isVersionOf" =
        [{ rtype := "isVersionOf", value := oriId.url }] ∧
      ({ rtype := "isReplacedBy", value := newId.url } : Relation) ∈ ori2.relations ∧
      ori2.immutable = true := by
  unfold create_new_version_resource
  simp only [hNew, hsIdentifier_relations, hOri]
  by_cases hv : relsOfType new.relations "isVersionOf" = []
  · simp only [hv, if_true, reduceIte]
    refine ⟨_, _, rfl, ?_, by simp, rfl⟩
    rw [relsOfType_append, hv]
    simp [relsOfType]
  · simp only [hv, reduceIte]
    refine ⟨_, _, rfl, ?_, by simp, rfl⟩
    rw [relsOfType_append, relsOfType_deleteFirstRel]
    rcases hl : relsOfType new.relations "isVersionOf" with _ | ⟨a, rest⟩
    · exact absurd hl hv
    · rw [hl] at hcount
      simp at hcount
      subst hcount
      simp [relsOfType]

/-- Witness for C4 on `r1` and a placeholder `r2` that inherited an
`isVersionOf` relation from metadata copying. -/
theorem new_version_relations_witness :
    ∃ ori2 new2,
      create_new_version_resource vR1 vR2inh = .ok (ori2, new2) ∧
      relsOfType new2.relations "isVersionOf" =
        [{ rtype := "isVersionOf", value := resourceUrlOf "r1" }] ∧
      ({ rtype := "isReplacedBy", value := resourceUrlOf "r2" } : Relation) ∈ ori2.relations ∧
      ori2.immutable = true :=
  new_version_relations_and_immutability vR1 vR2inh
    { name := "hydroShareIdentifier", url := resourceUrlOf "r1" }
    { name := "hydroShareIdentifier", url := resourceUrlOf "r2" }
    (by decide) (by decide) (by decide)

/-- C5: a resource holding an `isReplacedBy` relation (already superseded)
cannot be deleted — `delete_resource` fails with the chain-integrity
`ValidationError` and commits nothing; a chain head holding an
`isVersionOf` relation to a predecessor is deleted, and the predecessor's
`isReplacedBy` relation is removed and its immutability cleared. -/
theorem delete_resource_chain_rules (w : World) (pk : String) (res : VResource)
    (hres : lookupRes w pk = some res) :
    (relsOfType res.relations "isReplacedBy" ≠ [] →
      delete_resource w pk = .error (.chainIntegrity chainMsg)) ∧
    (∀ rel predId pred,
      relsOfType res.relations "isReplacedBy" = [] →
      (relsOfType res.relations "isVersionOf").head? = some rel →
      afterLastSlash rel.value = some predId →
      predId ≠ pk →
      lookupRes w predId = some pred →
      relsOfType pred.relations "isReplacedBy" ≠ [] →
      delete_resource w pk =
        .ok (removeRes (updateRes w predId
          { pred with relations := deleteFirstRel pred.relations "isReplacedBy",
                      immutable := false }) pk) ∧
      lookupRes (removeRes (updateRes w predId
          { pred with relations := deleteFirstRel pred.relations "isReplacedBy",
                      immutable := false }) pk) pk = none ∧
      lookupRes (removeRes (updateRes w predId
          { pred with relations := deleteFirstRel pred.relations "isReplacedBy",
                      immutable := false }) pk) predId =
        some { pred with relations := deleteFirstRel pred.relations "isReplacedBy",
                         immutable := false }) := by
  constructor
  · intro hrepl
    unfold delete_resource
    simp only [hres]
    simp [hrepl]
  · intro rel predId pred hnorepl hver hslash hne hpred hpredrepl
    refine ⟨?_, lookupRes_removeRes_self _ _, ?_⟩
    · unfold delete_resource
      simp only [hres, hver, hslash, hpred]
      simp [hnorepl, hpredrepl]
    · rw [lookupRes_removeRes_ne _ _ _ hne]
      exact lookupRes_updateRes_self _ _ _ _ hpred

/-- Witness for C5 on the concrete chain `r1 ← r2`: deleting the head
`r2` promotes `r1`. -/
theorem delete_resource_chain_witness :
    delete_resource worldChain "r2" =
      .ok (removeRes (updateRes worldChain "r1" vR1promoted) "r2") ∧
    lookupRes (removeRes (updateRes worldChain "r1" vR1promoted) "r2") "r2" = none ∧
    lookupRes (removeRes (updateRes worldChain "r1" vR1promoted) "r2") "r1" =
      some vR1promoted :=
  (delete_resource_chain_rules worldChain "r2" vR2head (by decide)).2
    { rtype := "isVersionOf", value := resourceUrlOf "r1" } "r1" vR1sup
    (by decide) (by decide) (by decide) (by decide) (by decide) (by decide)

end CommonsShare
